import Mathlib

/-!
Verification development for the Rush web SDK (TypeScript sources under
`ecs/web/sdk/typescript/src`).  The definitions below are a shallow
embedding of the SDK's data model and operations:

* JavaScript values carried as component data are embedded as `Value`
  (numbers restricted to integers; all inputs appearing in the claims are
  integers).
* JavaScript `Map` objects keyed by strings are embedded as association
  lists in insertion order; `Map.set` keeps the position of an existing
  key, as in JS.
* Fallible methods (`throw` / `catch`) are embedded with `Except`, the
  error payload being the thrown message (for `SDKError`) or a
  message/code pair (for `SolanaStorageError`).
* External effects (the Solana RPC connection, the regular-expression
  engine) are passed in as explicit oracle parameters.
-/

/-- JS runtime values used as component data.  `vNull`/`vUndefined` model
the JS `null`/`undefined` distinction; `vNum` carries integers. -/
inductive Value where
  | vStr (s : String)
  | vNum (n : Int)
  | vBool (b : Bool)
  | vNull
  | vUndefined
  | vArr (elems : List Value)
  | vObj (fields : List (String × Value))
deriving Repr

/-- JS `typeof`: note `typeof null = "object"` and arrays are `"object"`. -/
def typeofValue : Value → String
  | .vStr _ => "string"
  | .vNum _ => "number"
  | .vBool _ => "boolean"
  | .vNull => "object"
  | .vUndefined => "undefined"
  | .vArr _ => "object"
  | .vObj _ => "object"

/-! Association-list operations modelling the JS `Map` (string keys,
insertion order, `set` keeps the position of an existing key). -/

def mapGet (m : List (String × Value)) (k : String) : Option Value :=
  match m with
  | [] => none
  | (k', v) :: rest => if k' = k then some v else mapGet rest k

def mapHas (m : List (String × Value)) (k : String) : Bool :=
  match m with
  | [] => false
  | (k', _) :: rest => if k' = k then true else mapHas rest k

def mapSet (m : List (String × Value)) (k : String) (v : Value) :
    List (String × Value) :=
  match m with
  | [] => [(k, v)]
  | (k', v') :: rest => if k' = k then (k, v) :: rest else (k', v') :: mapSet rest k v

def mapDelete (m : List (String × Value)) (k : String) : List (String × Value) :=
  match m with
  | [] => []
  | (k', v') :: rest => if k' = k then rest else (k', v') :: mapDelete rest k

/-! ## Entity (src/core/Entity.ts, value level)

The `Entity` class holds `id`, `publicKey` and a `Map` of components.  At
this level we embed the component map by value; the reference-level
embedding needed for the defensive-copy claim is further below. -/

structure Entity where
  id : String
  publicKey : String
  components : List (String × Value)
deriving Repr

def Entity.addComponent (e : Entity) (componentType : String) (data : Value) : Entity :=
  { e with components := mapSet e.components componentType data }

def Entity.getComponent (e : Entity) (componentType : String) : Option Value :=
  mapGet e.components componentType

def Entity.hasComponent (e : Entity) (componentType : String) : Bool :=
  mapHas e.components componentType

def Entity.removeComponent (e : Entity) (componentType : String) : Bool × Entity :=
  (mapHas e.components componentType,
   { e with components := mapDelete e.components componentType })

/-! ## World (src/core/World.ts)

`entities` is the id→Entity map (insertion order), `queries` the secondary
cache `Map<string, Entity[]>` keyed by the comma-joined sorted component
list.  Registered systems are external callbacks (`SystemPort.update`)
and act on the world only through the public operations modelled here, so
the `systems` array itself is not carried in the state. -/

structure World where
  entities : List (String × Entity)
  queries : List (String × List Entity)
deriving Repr

def World.fresh : World := ⟨[], []⟩

def entityLookup (m : List (String × Entity)) (id : String) : Option Entity :=
  match m with
  | [] => none
  | (k, e) :: rest => if k = id then some e else entityLookup rest id

def World.getEntity (w : World) (id : String) : Option Entity :=
  entityLookup w.entities id

/-- Insertion-ordered entity sequence, `Array.from(this.entities.values())`. -/
def World.entityList (w : World) : List Entity :=
  w.entities.map Prod.snd

/-- `updateQueries(entity)`: push the entity into every cached query entry
whose component list it satisfies. -/
def World.updateQueries (w : World) (e : Entity) : World :=
  { w with
    queries := w.queries.map (fun kv =>
      let comps := kv.1.splitOn ","
      if comps.all (fun c => e.hasComponent c) then (kv.1, kv.2 ++ [e]) else kv) }

/-- `removeEntityFromQueries(entity)`: splice the entity out of every
cached entry (reference identity in JS; entities are identified by their
unique id here). -/
def World.removeEntityFromQueries (w : World) (e : Entity) : World :=
  { w with
    queries := w.queries.map (fun kv =>
      match kv.2.findIdx? (fun e' => e'.id = e.id) with
      | some i => (kv.1, kv.2.eraseIdx i)
      | none => kv) }

def World.createEntity (w : World) (id : String) (publicKey : String) :
    World × Entity :=
  let entity : Entity := ⟨id, publicKey, []⟩
  let w1 := { w with entities := (entitySet w.entities id entity) }
  (w1.updateQueries entity, entity)
where
  entitySet (m : List (String × Entity)) (k : String) (e : Entity) :
      List (String × Entity) :=
    match m with
    | [] => [(k, e)]
    | (k', e') :: rest =>
      if k' = k then (k, e) :: rest else (k', e') :: entitySet rest k e

def World.removeEntity (w : World) (id : String) : Bool × World :=
  match w.getEntity id with
  | some e =>
    let w1 := { w with entities := eraseKey w.entities id }
    (true, w1.removeEntityFromQueries e)
  | none => (false, w)
where
  eraseKey (m : List (String × Entity)) (k : String) : List (String × Entity) :=
    match m with
    | [] => []
    | (k', e') :: rest => if k' = k then rest else (k', e') :: eraseKey rest k

/-- `query(components)`: the `queryKey` is computed (sorted, comma-joined)
but never consulted — the result is a full linear scan over the entities
in insertion order. -/
def World.query (w : World) (components : List String) : List Entity :=
  let _queryKey := String.intercalate "," (components.mergeSort (· ≤ ·))
  w.entityList.filter (fun e => components.all (fun c => e.hasComponent c))

/-- Callers holding an `Entity` mutate it in place through
`addComponent`; the world's map entry reflects the mutation.  (The cached
query lists would alias the same object, but they are provably always
empty, see the cache theorem.) -/
def World.entAddComponent (w : World) (id componentType : String) (v : Value) : World :=
  { w with
    entities := w.entities.map (fun kv =>
      if kv.1 = id then (kv.1, kv.2.addComponent componentType v) else kv) }

def World.entRemoveComponent (w : World) (id componentType : String) : World :=
  { w with
    entities := w.entities.map (fun kv =>
      if kv.1 = id then (kv.1, (kv.2.removeComponent componentType).2) else kv) }

/-- The public operations through which a caller (including any registered
system during `World.update`) can act on a `World`. -/
inductive WorldOp where
  | createEntity (id publicKey : String)
  | removeEntity (id : String)
  | query (components : List String)
  | addComponent (id componentType : String) (v : Value)
  | removeComponent (id componentType : String)

def World.applyOp (w : World) : WorldOp → World
  | .createEntity id pk => (w.createEntity id pk).1
  | .removeEntity id => (w.removeEntity id).2
  | .query _ => w
  | .addComponent id c v => w.entAddComponent id c v
  | .removeComponent id c => w.entRemoveComponent id c

def World.applyOps (w : World) (ops : List WorldOp) : World :=
  ops.foldl World.applyOp w

/-! ## Component schemas (src/types/types.ts) and the validator
(RushSDK.validateComponentDataAgainstSchema, RushSDK.ts lines 319-408)

`type` may be a single type name or a list of names.  The regular
expression engine behind `new RegExp(pattern).test(data)` is an external
JS builtin and is passed in as an oracle `rtest`. -/

inductive SType where
  | one (t : String)
  | many (ts : List String)
deriving DecidableEq

inductive ComponentSchema where
  | mk (stype : Option SType)
       (properties : Option (List (String × ComponentSchema)))
       (required : Option (List String))
       (items : Option (ComponentSchema ⊕ List ComponentSchema))
       (optionalF : Option Bool)
       (minLength : Option Nat)
       (maxLength : Option Nat)
       (minimum : Option Int)
       (maximum : Option Int)
       (pattern : Option String)

def isArrV : Value → Bool
  | .vArr _ => true
  | _ => false

def isNullV : Value → Bool
  | .vNull => true
  | _ => false

/-- Sequencing of statements that may `throw` (exceptions short-circuit). -/
def eseq (a b : Except String Unit) : Except String Unit :=
  match a with
  | .error e => .error e
  | .ok _ => b

/-- The `schema.required` loop: first missing property name throws. -/
def checkRequired (req : Option (List String)) (fields : List (String × Value))
    (path : String) : Except String Unit :=
  match req with
  | none => .ok ()
  | some rs => go rs
where
  go : List String → Except String Unit
    | [] => .ok ()
    | r :: rest =>
      if mapHas fields r then go rest
      else .error ("Missing required property \"" ++ r ++ "\" for component \"" ++ path ++ "\".")

/-- Block 1 of the validator: the type check.  The outer source guard
`schema.type && typeof data !== schema.type && !(isArray && includes)`
skips the block when the single declared type already equals
`typeof data`, or when a type list contains it; otherwise `typeMatch` is
recomputed with the `array`/`null` special cases. -/
def checkTypeBlock (sty : Option SType) (data : Value) (path : String) :
    Except String Unit :=
  let td := typeofValue data
  match sty with
  | none => .ok ()
  | some (.one t) =>
    if td = t then .ok ()
    else if (t = "array" && isArrV data) || (t = "null" && isNullV data) then .ok ()
    else .error ("Data for component \"" ++ path ++ "\" has incorrect type. Expected "
      ++ t ++ ", got " ++ td ++ ".")
  | some (.many ts) =>
    if ts.contains td then .ok ()
    else if (ts.contains "array" && isArrV data) || (ts.contains "null" && isNullV data) then
      .ok ()
    else .error ("Data for component \"" ++ path ++ "\" has incorrect type. Expected "
      ++ String.intercalate " or " ts ++ ", got " ++ td ++ ".")

/-- Block 3 of the validator: the `minLength`/`maxLength`/`minimum`/
`maximum`/`pattern` constraints, each guarded on the runtime type of the
data, in source order. -/
def checkConstraints (rtest : String → String → Bool) (minL? maxL? : Option Nat)
    (minI? maxI? : Option Int) (pat? : Option String) (data : Value)
    (path : String) : Except String Unit :=
  eseq (checkMinLength minL? data path)
    (eseq (checkMaxLength maxL? data path)
      (eseq (checkMinimum minI? data path)
        (eseq (checkMaximum maxI? data path) (checkPattern rtest pat? data path))))
where
  checkMinLength (minL? : Option Nat) (data : Value) (path : String) :
      Except String Unit :=
    match minL?, data with
    | some m, .vStr s =>
      if s.length < m then
        .error ("Component \"" ++ path ++ "\" string length " ++ toString s.length
          ++ " is less than minimum " ++ toString m ++ ".")
      else .ok ()
    | _, _ => .ok ()
  checkMaxLength (maxL? : Option Nat) (data : Value) (path : String) :
      Except String Unit :=
    match maxL?, data with
    | some m, .vStr s =>
      if s.length > m then
        .error ("Component \"" ++ path ++ "\" string length " ++ toString s.length
          ++ " exceeds maximum " ++ toString m ++ ".")
      else .ok ()
    | _, _ => .ok ()
  checkMinimum (minI? : Option Int) (data : Value) (path : String) :
      Except String Unit :=
    match minI?, data with
    | some m, .vNum n =>
      if n < m then
        .error ("Component \"" ++ path ++ "\" value " ++ toString n
          ++ " is less than minimum " ++ toString m ++ ".")
      else .ok ()
    | _, _ => .ok ()
  checkMaximum (maxI? : Option Int) (data : Value) (path : String) :
      Except String Unit :=
    match maxI?, data with
    | some m, .vNum n =>
      if n > m then
        .error ("Component \"" ++ path ++ "\" value " ++ toString n
          ++ " exceeds maximum " ++ toString m ++ ".")
      else .ok ()
    | _, _ => .ok ()
  checkPattern (rtest : String → String → Bool) (pat? : Option String)
      (data : Value) (path : String) : Except String Unit :=
    match pat?, data with
    | some p, .vStr s =>
      if rtest p s then .ok ()
      else .error ("Component \"" ++ path ++ "\" value \"" ++ s
        ++ "\" does not match pattern \"" ++ p ++ "\".")
    | _, _ => .ok ()

/-- `validateComponentDataAgainstSchema(data, schema, componentType)`:
block 1 is the type check, block 2 the object/array case split, block 3
the string/number/pattern constraints, run in source order with thrown
errors short-circuiting.  `console.warn` output (extra properties) has no
effect on the result and is not carried here.

The recursion (into `properties` sub-schemas and the honoured `items`
schema) strictly decreases the schema, so it is phrased structurally on a
fuel bounded below by the schema nesting depth; `validateCDAS` supplies
`sizeOf` of the schema, which every nesting step decreases by at least
one, so the fuel never runs out on the actual call graph. -/
def validateFuel (rtest : String → String → Bool) :
    Nat → ComponentSchema → Value → String → Except String Unit
  | 0, _, _, _ => .ok ()
  | n + 1, sch, data, path =>
    match sch with
    | .mk sty props? req? items? _opt minL? maxL? minI? maxI? pat? =>
      eseq (checkTypeBlock sty data path)
        (eseq
          (if sty = some (.one "object") then
            match data with
            | .vObj fields =>
              eseq (checkRequired req? fields path)
                (match props? with
                 | none => .ok ()
                 | some props =>
                   props.foldl (fun acc pv =>
                     eseq acc
                       (if mapHas fields pv.1 then
                         validateFuel rtest n pv.2 ((mapGet fields pv.1).getD .vUndefined)
                           (path ++ "." ++ pv.1)
                       else .ok ())) (.ok ()))
            | _ => .error ("Component \"" ++ path ++ "\" data expected to be an object, got "
                ++ typeofValue data ++ ".")
          else if sty = some (.one "array") then
            match data with
            | .vArr elems =>
              (match items? with
               | none => .ok ()
               | some it =>
                 if elems.length > 0 then
                   match it with
                   | .inl isch =>
                     elems.enum.foldl (fun acc iv =>
                       eseq acc (validateFuel rtest n isch iv.2
                         (path ++ "[" ++ toString iv.1 ++ "]"))) (.ok ())
                   | .inr [] => .ok ()
                   | .inr (isch :: _) =>
                     elems.enum.foldl (fun acc iv =>
                       eseq acc (validateFuel rtest n isch iv.2
                         (path ++ "[" ++ toString iv.1 ++ "]"))) (.ok ())
                 else .ok ())
            | _ => .error ("Component \"" ++ path ++ "\" data expected to be an array, got "
                ++ typeofValue data ++ ".")
          else .ok ())
          (checkConstraints rtest minL? maxL? minI? maxI? pat? data path))

/-! Nesting depth of a schema: recursion in the validator only descends
into `properties` sub-schemas and the honoured `items` schema, so the
depth bounds the validator's recursion. -/
mutual

def schemaDepth : ComponentSchema → Nat
  | .mk _ props? _ items? _ _ _ _ _ _ =>
    1 + max (optPropsDepth props?) (optItemsDepth items?)

def optPropsDepth : Option (List (String × ComponentSchema)) → Nat
  | none => 0
  | some ps => propsDepth ps

def propsDepth : List (String × ComponentSchema) → Nat
  | [] => 0
  | (_, s) :: rest => max (schemaDepth s) (propsDepth rest)

def optItemsDepth : Option (ComponentSchema ⊕ List ComponentSchema) → Nat
  | none => 0
  | some (.inl s) => schemaDepth s
  | some (.inr ss) => listDepth ss

def listDepth : List ComponentSchema → Nat
  | [] => 0
  | s :: rest => max (schemaDepth s) (listDepth rest)

end

def validateCDAS (rtest : String → String → Bool) (sch : ComponentSchema)
    (data : Value) (path : String) : Except String Unit :=
  validateFuel rtest (schemaDepth sch) sch data path

/-! ## Blueprint (src/types/types.ts) and the SDK facade (src/RushSDK.ts)

The facade's constructor state: a fresh `World`, no wallet, no session,
and an optionally loaded blueprint.  `SDKError` is carried as its message
string (the optional `cause` object is not inspected by any claim). -/

structure IBTreeMap where
  K : String
  V : String
  A : String

structure IBluePrint where
  name : String
  description : String
  componentSchemas : Option (List (String × ComponentSchema))
  entities : IBTreeMap
  regions : IBTreeMap
  instances : IBTreeMap

/-- A signing keypair, identified by its base58 public key. -/
structure Keypair where
  publicKey : String
deriving DecidableEq, Repr

structure SDKState where
  world : World
  wallet : Option Keypair
  userWalletPublicKey : Option String
  activeSessionKeypair : Option Keypair
  blueprint : Option IBluePrint

def SDKState.init (blueprint : Option IBluePrint) : SDKState :=
  ⟨World.fresh, none, none, none, blueprint⟩

/-- `setPrimaryWallet(wallet)`: sets the primary signer and clears any
active session. -/
def SDKState.setPrimaryWallet (s : SDKState) (w : Keypair) : SDKState :=
  { s with wallet := some w, userWalletPublicKey := some w.publicKey,
           activeSessionKeypair := none }

/-- `activateSessionKeypair(sessionKeypair)`: note that the source also
overwrites `this.wallet` with the session keypair. -/
def SDKState.activateSessionKeypair (s : SDKState) (k : Keypair) : SDKState :=
  { s with activeSessionKeypair := some k, wallet := some k }

/-- `deactivateSession()`: note that the source sets `this.wallet = null`
as well, although its own doc comment says it falls back to the primary
wallet if set. -/
def SDKState.deactivateSession (s : SDKState) : SDKState :=
  { s with activeSessionKeypair := none, wallet := none }

/-- `getActivePayer()`: prefer the active session keypair, fall back to
`this.wallet`, else throw. -/
def SDKState.getActivePayer (s : SDKState) : Except String Keypair :=
  match s.activeSessionKeypair with
  | some k => .ok k
  | none =>
    match s.wallet with
    | some w => .ok w
    | none => .error "No active payer wallet found. Set a primary wallet or create and activate a session."

def schemaLookup (m : List (String × ComponentSchema)) (k : String) :
    Option ComponentSchema :=
  match m with
  | [] => none
  | (k', v) :: rest => if k' = k then some v else schemaLookup rest k

/-- The validation half of `processComponent` (RushSDK.ts lines 288-304),
reading `this.blueprint`: returns the warnings logged on the non-throwing
paths. -/
def validateStep (rtest : String → String → Bool) (blueprint : Option IBluePrint)
    (componentType : String) (data : Value) : Except String (List String) :=
  match blueprint with
  | none => .ok []
  | some bp =>
    match bp.componentSchemas with
    | none =>
      .ok ["Blueprint \"" ++ bp.name
        ++ "\" is loaded but does not contain a 'componentSchemas' definition. Skipping validation for component \""
        ++ componentType ++ "\"."]
    | some schemas =>
      match schemaLookup schemas componentType with
      | none => .error ("Component type \"" ++ componentType
          ++ "\" is not defined in the blueprint's componentSchemas.")
      | some schema =>
        match validateCDAS rtest schema data componentType with
        | .error e => .error e
        | .ok _ => .ok []

/-- `processComponent(entityId, componentType, componentData)`
(RushSDK.ts lines 287-316): validate against the blueprint, then attach
to the entity only if it already exists locally; a missing entity logs a
warning and never raises.  The result carries the updated facade state
and the warnings logged. -/
def processComponent (rtest : String → String → Bool) (s : SDKState)
    (entityId componentType : String) (data : Value) :
    Except String (SDKState × List String) :=
  match validateStep rtest s.blueprint componentType data with
  | .error e => .error e
  | .ok warnings =>
    match s.world.getEntity entityId with
    | some _ =>
      .ok ({ s with world := s.world.entAddComponent entityId componentType data },
           warnings)
    | none =>
      .ok (s, warnings ++ ["Entity \"" ++ entityId
        ++ "\" not found locally. Component \"" ++ componentType
        ++ "\" was validated but not added."])

/-! Serialization (`serializeEntityData`, a JSON.stringify of
`{id, owner, components}`).  No claim inspects the produced string; the
printer below models JSON.stringify on the value domain (`vUndefined`
does not occur in serialized components). -/

def jsonEscape (s : String) : String :=
  s.foldl (fun acc c =>
    acc ++ (if c = '"' then "\\\"" else if c = '\\' then "\\\\" else String.singleton c)) ""

mutual

def Value.toJson : Value → String
  | .vStr s => "\"" ++ jsonEscape s ++ "\""
  | .vNum n => toString n
  | .vBool b => if b then "true" else "false"
  | .vNull => "null"
  | .vUndefined => "null"
  | .vArr es => "[" ++ jsonElems es ++ "]"
  | .vObj fs => "\x7b" ++ jsonFields fs ++ "\x7d"

def jsonElems : List Value → String
  | [] => ""
  | [v] => Value.toJson v
  | v :: rest => Value.toJson v ++ "," ++ jsonElems rest

def jsonFields : List (String × Value) → String
  | [] => ""
  | [(k, v)] => "\"" ++ jsonEscape k ++ "\":" ++ Value.toJson v
  | (k, v) :: rest => "\"" ++ jsonEscape k ++ "\":" ++ Value.toJson v ++ "," ++ jsonFields rest

end

def serializeEntityData (e : Entity) : String :=
  "\x7b\"id\":" ++ Value.toJson (.vStr e.id) ++ ",\"owner\":"
    ++ Value.toJson (.vStr e.publicKey) ++ ",\"components\":"
    ++ Value.toJson (.vObj e.components) ++ "\x7d"

/-- The `for (const [componentType, data] of Object.entries(components))`
loop of `createEntity`: each entry goes through `processComponent`; a
thrown `SDKError` propagates (the already-created local entity and the
already-attached components stay). -/
def processAll (rtest : String → String → Bool) (s : SDKState) (entityId : String) :
    List (String × Value) → SDKState × Option String
  | [] => (s, none)
  | (ty, v) :: rest =>
    match processComponent rtest s entityId ty v with
    | .error e => (s, some e)
    | .ok (s1, _warnings) => processAll rtest s1 entityId rest

/-- `RushSDK.createEntity(components)` (RushSDK.ts lines 248-276).  The
freshly generated entity account keypair (`Keypair.generate()`) is passed
in as `entityAccount`; the storage adapter's chain submission
(`this.storage.createEntity(serialized, payer, "default_world")`) is the
oracle `chain`.  The returned pair carries the facade state (the local
`World` mutations survive a thrown error) and the result. -/
def RushSDK.createEntity (rtest : String → String → Bool) (s : SDKState)
    (entityAccount : Keypair) (components : List (String × Value))
    (chain : String → Keypair → String → Except String String) :
    SDKState × Except String Entity :=
  match s.getActivePayer with
  | .error e => (s, .error e)
  | .ok payer =>
    let entityId := entityAccount.publicKey
    let created := s.world.createEntity entityId entityAccount.publicKey
    let s1 := { s with world := created.1 }
    match processAll rtest s1 entityId components with
    | (s2, some e) => (s2, .error e)
    | (s2, none) =>
      -- the entity was created above, so the lookup cannot miss
      let ent := (s2.world.getEntity entityId).getD created.2
      match chain (serializeEntityData ent) payer "default_world" with
      | .ok _signature => (s2, .ok ent)
      | .error _cause =>
        (s2, .error ("Failed to save entity " ++ entityId ++ " to chain during creation."))

/-! ## Storage adapters

The RPC connection is an oracle.  `AccountData.data` models the `data`
field of a returned `AccountInfo<Buffer>`: `some b` is a Buffer holding
bytes `b` (possibly none at all — a zero-length Buffer is still a JS
object and therefore truthy), `none` models an absent/null field (the
shape the repository's own tests feed the adapter).  A whole missing
account is `FetchResult.ok none`; a rejected fetch is `FetchResult.err`. -/

abbrev Bytes := List Nat

structure AccountData where
  data : Option Bytes

inductive FetchResult where
  | ok (info : Option AccountData)
  | err (msg : String)

structure Connection where
  getAccountInfo : String → FetchResult
  getMultipleAccountsInfo : List String → Except String (List (Option AccountData))

/-- Model of web3.js `PublicKey.findProgramAddressSync`: a deterministic,
injective encoding of the seed list under the program id (the real
derivation hashes; no claim depends on the hash itself). -/
def findProgramAddress (seeds : List String) (programId : String) : String :=
  "pda(" ++ String.intercalate "|" seeds ++ ";" ++ programId ++ ")"

/-! ### Permissive generation (src/storage/SolanaStorageAdapter.ts) -/

structure PermissiveAdapter where
  connection : Connection
  programId : String

namespace Permissive

/-- `getData`: `return accountInfo?.data || null`, with any thrown fetch
error caught, logged and resolved to `null`.  A present `data` Buffer is
truthy even when zero-length, so it is returned as-is. -/
def getData (a : PermissiveAdapter) (address : String) : Option Bytes :=
  match a.connection.getAccountInfo address with
  | .err _ => none
  | .ok none => none
  | .ok (some info) =>
    match info.data with
    | none => none
    | some b => some b

/-- `getMultipleAccounts`: maps `accountInfo?.data || null` over the
results; a thrown fetch error resolves to an all-`null` array of the
input length. -/
def getMultipleAccounts (a : PermissiveAdapter) (addresses : List String) :
    List (Option Bytes) :=
  match a.connection.getMultipleAccountsInfo addresses with
  | .error _ => List.replicate addresses.length none
  | .ok infos =>
    infos.map (fun info? =>
      match info? with
      | none => none
      | some info =>
        match info.data with
        | none => none
        | some b => some b)

/-- `getEntityDataById`: derive the entity PDA from
`["entity", worldName, entityId]` and delegate to `getData` (errors from
the delegate cannot occur; the surrounding catch also resolves to null). -/
def getEntityDataById (a : PermissiveAdapter) (entityId worldName : String) :
    Option Bytes :=
  getData a (findProgramAddress ["entity", worldName, entityId] a.programId)

end Permissive

/-! ### Strict generation (the second `SolanaStorageAdapter`, with
`SolanaStorageError` carrying a stable machine-readable code) -/

structure SolanaStorageError where
  message : String
  code : String
deriving DecidableEq, Repr

structure StrictAdapter where
  connection : Connection
  programId : String

namespace Strict

/-- Strict `getData`: `if (!accountInfo || !accountInfo.data) throw ...`;
the inner typed throw is caught by the method's own catch and re-wrapped
with the same `DATA_FETCH_ERROR` code.  A present zero-length Buffer is
truthy, so it is returned, not thrown on. -/
def getData (a : StrictAdapter) (address : String) :
    Except SolanaStorageError Bytes :=
  match a.connection.getAccountInfo address with
  | .err m =>
    .error ⟨"Failed to fetch data for address " ++ address ++ ": " ++ m,
      "DATA_FETCH_ERROR"⟩
  | .ok none =>
    .error ⟨"Failed to fetch data for address " ++ address
      ++ ": Account data not found for address " ++ address, "DATA_FETCH_ERROR"⟩
  | .ok (some info) =>
    match info.data with
    | none =>
      .error ⟨"Failed to fetch data for address " ++ address
        ++ ": Account data not found for address " ++ address, "DATA_FETCH_ERROR"⟩
    | some b => .ok b

/-- The `accountsInfo.map((info, index) => ...)` body: the first entry
without a truthy `data` throws; the catch re-wraps it under
`MULTIPLE_ACCOUNTS_FETCH_ERROR`. -/
def collectAccounts : List (String × Option AccountData) →
    Except SolanaStorageError (List Bytes)
  | [] => .ok []
  | (addr, info?) :: rest =>
    match info? with
    | none =>
      .error ⟨"Failed to fetch multiple accounts: Account data not found for address "
        ++ addr, "MULTIPLE_ACCOUNTS_FETCH_ERROR"⟩
    | some info =>
      match info.data with
      | none =>
        .error ⟨"Failed to fetch multiple accounts: Account data not found for address "
          ++ addr, "MULTIPLE_ACCOUNTS_FETCH_ERROR"⟩
      | some b =>
        match collectAccounts rest with
        | .error e => .error e
        | .ok bs => .ok (b :: bs)

def getMultipleAccounts (a : StrictAdapter) (addresses : List String) :
    Except SolanaStorageError (List Bytes) :=
  match a.connection.getMultipleAccountsInfo addresses with
  | .error m =>
    .error ⟨"Failed to fetch multiple accounts: " ++ m, "MULTIPLE_ACCOUNTS_FETCH_ERROR"⟩
  | .ok infos => collectAccounts (addresses.zip infos)

/-- Strict `getEntityDataById`: derives the entity PDA from
`["entity", worldName, entityId]`, fetches the account itself, and throws
`ENTITY_GET_ERROR` (re-wrapped by its own catch) when the account or its
`data` field is missing. -/
def getEntityDataById (a : StrictAdapter) (entityId worldName : String) :
    Except SolanaStorageError Bytes :=
  let pda := findProgramAddress ["entity", worldName, entityId] a.programId
  match a.connection.getAccountInfo pda with
  | .err m =>
    .error ⟨"Failed to get entity data for ID " ++ entityId ++ ": " ++ m,
      "ENTITY_GET_ERROR"⟩
  | .ok none =>
    .error ⟨"Failed to get entity data for ID " ++ entityId ++ ": Entity " ++ entityId
      ++ " not found in world " ++ worldName, "ENTITY_GET_ERROR"⟩
  | .ok (some info) =>
    match info.data with
    | none =>
      .error ⟨"Failed to get entity data for ID " ++ entityId ++ ": Entity " ++ entityId
        ++ " not found in world " ++ worldName, "ENTITY_GET_ERROR"⟩
    | some b => .ok b

end Strict

/-! ## Entity at the reference level (src/core/Entity.ts)

To state the defensive-copy property, the component `Map` objects live in
an explicit store of cells; an entity holds a reference to its own cell.
`getComponents()` executes `new Map(this.components)`: it allocates a
fresh cell holding a copy of the entity's current map and returns the new
reference.  The caller may then mutate the returned `Map` through
`set`/`delete` entry operations. -/

structure Store where
  cells : List (List (String × Value))

def Store.read (st : Store) (r : Nat) : List (String × Value) :=
  st.cells.getD r []

def Store.write (st : Store) (r : Nat) (m : List (String × Value)) : Store :=
  ⟨st.cells.set r m⟩

/-- Allocate a fresh cell; the new reference is the previous cell count. -/
def Store.alloc (st : Store) (m : List (String × Value)) : Nat × Store :=
  (st.cells.length, ⟨st.cells ++ [m]⟩)

structure EntityRef where
  id : String
  publicKey : String
  componentsRef : Nat

namespace EntityH

def addComponent (st : Store) (e : EntityRef) (componentType : String)
    (data : Value) : Store :=
  st.write e.componentsRef (mapSet (st.read e.componentsRef) componentType data)

def getComponent (st : Store) (e : EntityRef) (componentType : String) :
    Option Value :=
  mapGet (st.read e.componentsRef) componentType

/-- `getComponents(): return new Map(this.components)` — a fresh `Map`
object initialized with the entries of the entity's own map. -/
def getComponents (st : Store) (e : EntityRef) : Nat × Store :=
  st.alloc (st.read e.componentsRef)

end EntityH

/-- Entry-level mutations a caller can apply to a returned `Map` object. -/
inductive MapMut where
  | set (k : String) (v : Value)
  | del (k : String)

def applyMut (st : Store) (r : Nat) : MapMut → Store
  | .set k v => st.write r (mapSet (st.read r) k v)
  | .del k => st.write r (mapDelete (st.read r) k)

def applyMuts (st : Store) (r : Nat) (muts : List MapMut) : Store :=
  muts.foldl (fun st' m => applyMut st' r m) st

/-! ## Theorems -/

/-- C1: Payer resolution precedence in the SDK facade.  After
`setPrimaryWallet(W1)` and `activateSessionKeypair(W2)` the resolved
payer is W2, and with neither ever set every payer-requiring call raises
the exact no-active-payer message — but after a subsequent
`deactivateSession()` the payer does NOT revert to W1: the source clears
`this.wallet` both in `activateSessionKeypair` (overwriting it with the
session keypair) and in `deactivateSession` (setting it to null), so the
resolver throws the no-active-payer error, contradicting the method's own
documentation ("falling back to the primary wallet if set"). -/
theorem c1_payer_resolution_on_code :
    ((((SDKState.init none).setPrimaryWallet ⟨"W1"⟩).activateSessionKeypair
        ⟨"W2"⟩).getActivePayer = Except.ok ⟨"W2"⟩)
    ∧ (((((SDKState.init none).setPrimaryWallet ⟨"W1"⟩).activateSessionKeypair
        ⟨"W2"⟩).deactivateSession).getActivePayer
      = Except.error "No active payer wallet found. Set a primary wallet or create and activate a session.")
    ∧ ((SDKState.init none).getActivePayer
      = Except.error "No active payer wallet found. Set a primary wallet or create and activate a session.")
    ∧ ((RushSDK.createEntity (fun _ _ => true)
        ((((SDKState.init none).setPrimaryWallet ⟨"W1"⟩).activateSessionKeypair
          ⟨"W2"⟩).deactivateSession)
        ⟨"E"⟩ [] (fun _ _ _ => Except.ok "sig")).2
      = Except.error "No active payer wallet found. Set a primary wallet or create and activate a session.") := by
  exact ⟨rfl, rfl, rfl, rfl⟩

/-! Concrete blueprint for the schema-validation claim: a `Position`
object schema whose properties `x` and `y` have type `number`. -/

def numberSchema : ComponentSchema :=
  .mk (some (.one "number")) none none none none none none none none none

def positionSchema : ComponentSchema :=
  .mk (some (.one "object")) (some [("x", numberSchema), ("y", numberSchema)])
    (some ["x", "y"]) none none none none none none none

def positionBlueprint : IBluePrint :=
  { name := "TestBlueprint"
    description := "blueprint with a Position schema"
    componentSchemas := some [("Position", positionSchema)]
    entities := ⟨"string", "Entity", "BTreeMap"⟩
    regions := ⟨"string", "Region", "BTreeMap"⟩
    instances := ⟨"string", "Instance", "BTreeMap"⟩ }

def positionSDKState : SDKState := SDKState.init (some positionBlueprint)

/-- C5: with a blueprint declaring a Position object schema whose
properties `x` and `y` have type number, `processComponent` on
`{x: "wrong", y: 20}` raises exactly
`Data for component "Position.x" has incorrect type. Expected number, got string.`
(the path names the nested property; the reported actual type is the JS
runtime type of the offending value). -/
theorem c5_schema_type_mismatch_message :
    processComponent (fun _ _ => true) positionSDKState "e1" "Position"
      (.vObj [("x", .vStr "wrong"), ("y", .vNum 20)])
    = Except.error "Data for component \"Position.x\" has incorrect type. Expected number, got string." := by
  rfl

/-- C6: for an entity id the World does not contain, `processComponent`
(whenever the validation step succeeds, e.g. under any loaded blueprint
that accepts the data) attaches nothing, leaves the facade state
unchanged, logs the missing-entity warning, and does not raise. -/
theorem c6_missing_entity_tolerance (rtest : String → String → Bool)
    (s : SDKState) (entityId componentType : String) (data : Value)
    (warnings : List String)
    (hmissing : s.world.getEntity entityId = none)
    (hvalid : validateStep rtest s.blueprint componentType data = .ok warnings) :
    processComponent rtest s entityId componentType data
      = Except.ok (s, warnings ++ ["Entity \"" ++ entityId
          ++ "\" not found locally. Component \"" ++ componentType
          ++ "\" was validated but not added."]) := by
  unfold processComponent
  rw [hvalid, hmissing]

/-- Witness for C6 at a concrete input: a fresh facade without a
blueprint and an id the world does not contain. -/
theorem c6_witness :
    processComponent (fun _ _ => true) (SDKState.init none) "ghost" "Position" .vNull
      = Except.ok (SDKState.init none,
          ["Entity \"ghost\" not found locally. Component \"Position\" was validated but not added."]) :=
  c6_missing_entity_tolerance (fun _ _ => true) (SDKState.init none) "ghost"
    "Position" .vNull [] rfl rfl

/-- C2: `query` returns exactly the entities whose component set contains
every requested name, as a subsequence of the insertion-ordered entity
list (linear scan, no cache involvement); the empty request list returns
every entity, and a request containing a name no entity has returns the
empty sequence. -/
theorem c2_query_semantics :
    (∀ (w : World) (comps : List String) (e : Entity),
        e ∈ w.query comps ↔ e ∈ w.entityList ∧ ∀ c ∈ comps, e.hasComponent c = true)
    ∧ (∀ (w : World) (comps : List String), (w.query comps).Sublist w.entityList)
    ∧ (∀ w : World, w.query [] = w.entityList)
    ∧ (∀ (w : World) (comps : List String) (c : String), c ∈ comps →
        (∀ e ∈ w.entityList, e.hasComponent c = false) → w.query comps = []) := by
  refine ⟨?_, ?_, ?_, ?_⟩
  · intro w comps e
    simp [World.query, List.mem_filter, List.all_eq_true]
  · intro w comps
    exact List.filter_sublist w.entityList
  · intro w
    simp [World.query]
  · intro w comps c hc hnone
    simp only [World.query]
    rw [List.filter_eq_nil_iff]
    intro e he hall
    have h1 := List.all_eq_true.mp hall c hc
    rw [hnone e he] at h1
    exact Bool.false_ne_true h1

/-- C3: the query cache is never populated — starting from a fresh World
it stays empty across every sequence of public operations — and the
result of `query` is determined solely by the entities, never by the
cache contents. -/
theorem c3_query_cache_dead :
    (∀ ops : List WorldOp, (World.fresh.applyOps ops).queries = [])
    ∧ (∀ (w1 w2 : World) (comps : List String),
        w1.entities = w2.entities → w1.query comps = w2.query comps) := by
  constructor
  · have step : ∀ (w : World) (op : WorldOp), w.queries = [] →
        (w.applyOp op).queries = [] := by
      intro w op h
      cases op with
      | createEntity id pk =>
        simp [World.applyOp, World.createEntity, World.updateQueries, h]
      | removeEntity id =>
        simp only [World.applyOp, World.removeEntity]
        split
        · simp [World.removeEntityFromQueries, h]
        · exact h
      | query comps => exact h
      | addComponent id c v => simp [World.applyOp, World.entAddComponent, h]
      | removeComponent id c => simp [World.applyOp, World.entRemoveComponent, h]
    have inv : ∀ (ops : List WorldOp) (w : World), w.queries = [] →
        (w.applyOps ops).queries = [] := by
      intro ops
      induction ops with
      | nil => intro w h; exact h
      | cons op rest ih =>
        intro w h
        exact ih _ (step w op h)
    exact fun ops => inv ops World.fresh rfl
  · intro w1 w2 comps h
    simp [World.query, World.entityList, h]

/-- C10 (implicit): `query` is order- and duplicate-insensitive in its
request list — two request lists with the same underlying set of names
produce the same result. -/
theorem c10_query_request_set_invariance (w : World) (l1 l2 : List String)
    (h12 : ∀ c ∈ l1, c ∈ l2) (h21 : ∀ c ∈ l2, c ∈ l1) :
    w.query l1 = w.query l2 := by
  simp only [World.query]
  apply List.filter_congr
  intro e _
  apply Bool.eq_iff_iff.mpr
  simp only [List.all_eq_true]
  constructor
  · intro h c hc
    exact h c (h21 c hc)
  · intro h c hc
    exact h c (h12 c hc)

def c10World : World :=
  (World.fresh.createEntity "e1" "pk1").1.entAddComponent "e1" "position" (.vNum 1)

/-- Witness for C10: a one-entity world queried with `["position",
"position", "renderable"]` and `["renderable", "position"]`. -/
theorem c10_witness :
    c10World.query ["position", "position", "renderable"]
      = c10World.query ["renderable", "position"] :=
  c10_query_request_set_invariance c10World _ _ (by decide) (by decide)

/-! Helper lemmas for the defensive-copy claim: reading an untouched cell
is unaffected by writes to another cell and by fresh allocations. -/

lemma store_read_write_ne (st : Store) (r i : Nat)
    (m : List (String × Value)) (hne : i ≠ r) :
    (st.write r m).read i = st.read i := by
  simp only [Store.read, Store.write]
  rw [List.getD_eq_getElem?_getD, List.getD_eq_getElem?_getD, List.getElem?_set_ne hne.symm]

lemma store_read_alloc (st : Store) (m : List (String × Value)) (i : Nat)
    (h : i < st.cells.length) :
    (st.alloc m).2.read i = st.read i := by
  simp only [Store.read, Store.alloc]
  exact List.getD_append _ _ _ _ h

lemma applyMuts_read_ne (muts : List MapMut) :
    ∀ (st : Store) (r i : Nat), i ≠ r →
      (applyMuts st r muts).read i = st.read i := by
  induction muts with
  | nil => intro st r i _; rfl
  | cons m rest ih =>
    intro st r i hne
    have : applyMuts st r (m :: rest) = applyMuts (applyMut st r m) r rest := rfl
    rw [this, ih _ r i hne]
    cases m with
    | set k v => exact store_read_write_ne _ _ _ _ hne
    | del k => exact store_read_write_ne _ _ _ _ hne

/-- C4: `getComponents()` returns a fresh copy (`new Map(this.components)`)
— after any sequence of entry-level mutations (set/delete) applied to the
returned map, `getComponent` on the entity returns exactly what it
returned before. -/
theorem c4_defensive_copy (st : Store) (e : EntityRef) (k : String)
    (muts : List MapMut) (hwf : e.componentsRef < st.cells.length) :
    EntityH.getComponent
      (applyMuts (EntityH.getComponents st e).2 (EntityH.getComponents st e).1 muts) e k
    = EntityH.getComponent st e k := by
  have hne : e.componentsRef ≠ (EntityH.getComponents st e).1 :=
    Nat.ne_of_lt hwf
  unfold EntityH.getComponent
  rw [applyMuts_read_ne muts _ _ _ hne]
  unfold EntityH.getComponents
  rw [store_read_alloc _ _ _ hwf]

/-- Witness for C4: a store holding one entity map; the copy returned by
`getComponents` is mutated (overwrite then delete) without affecting the
entity's own `getComponent`. -/
theorem c4_witness :
    EntityH.getComponent
      (applyMuts (EntityH.getComponents ⟨[[("a", .vNum 1)]]⟩ ⟨"e", "pk", 0⟩).2
        (EntityH.getComponents ⟨[[("a", .vNum 1)]]⟩ ⟨"e", "pk", 0⟩).1
        [.set "a" (.vNum 9), .del "a"])
      ⟨"e", "pk", 0⟩ "a"
    = EntityH.getComponent ⟨[[("a", .vNum 1)]]⟩ ⟨"e", "pk", 0⟩ "a" :=
  c4_defensive_copy ⟨[[("a", .vNum 1)]]⟩ ⟨"e", "pk", 0⟩ "a"
    [.set "a" (.vNum 9), .del "a"] (by decide)

/-- Connection used to refute the strict adapter's found-but-empty claim:
every account resolves to a present `AccountInfo` whose `data` is a
zero-length Buffer. -/
def c7Connection : Connection :=
  ⟨fun _ => .ok (some ⟨some []⟩), fun addrs => .ok (addrs.map (fun _ => some ⟨some []⟩))⟩

def c7Adapter : StrictAdapter := ⟨c7Connection, "Prog1111"⟩

/-- C7 counterexample: on an account that is found but whose payload is
empty (a zero-length `data` Buffer — an object, hence truthy in JS), the
strict `getData` returns the empty payload instead of raising a typed
`SolanaStorageError`, refuting the claim that every such read raises. -/
theorem c7_counterexample :
    Strict.getData c7Adapter "Addr1" = Except.ok [] := rfl

/-- The `accountsInfo.map` body of the strict `getMultipleAccounts`
throws at the first entry without a truthy `data`: if every entry before
position `i` has present data and the entry at `i` is a null account or
has a null `data` field, the batch raises the re-wrapped
`MULTIPLE_ACCOUNTS_FETCH_ERROR` naming that entry's address. -/
lemma collectAccounts_first_missing (addr : String) (info? : Option AccountData)
    (hmiss : info? = none ∨ info? = some ⟨none⟩) :
    ∀ (pre post : List (String × Option AccountData)),
      (∀ ad inf?, (ad, inf?) ∈ pre → ∃ b, inf? = some ⟨some b⟩) →
      Strict.collectAccounts (pre ++ (addr, info?) :: post)
        = Except.error ⟨"Failed to fetch multiple accounts: Account data not found for address "
            ++ addr, "MULTIPLE_ACCOUNTS_FETCH_ERROR"⟩ := by
  intro pre
  induction pre with
  | nil =>
    intro post _
    rcases hmiss with h | h
    · subst h; rfl
    · subst h; rfl
  | cons p rest ih =>
    intro post hpre
    obtain ⟨a0, i0⟩ := p
    obtain ⟨b, hb⟩ := hpre a0 i0 (List.mem_cons_self _ _)
    subst hb
    have htail := ih post (fun ad inf? hm => hpre ad inf? (List.mem_cons_of_mem _ hm))
    simp [Strict.collectAccounts, htail]

/-- A batch whose entries all have present data collects successfully. -/
lemma collectAccounts_all_present :
    ∀ l : List (String × Option AccountData),
      (∀ ad inf?, (ad, inf?) ∈ l → ∃ b, inf? = some ⟨some b⟩) →
      ∃ bs, Strict.collectAccounts l = Except.ok bs := by
  intro l
  induction l with
  | nil => intro _; exact ⟨[], rfl⟩
  | cons p rest ih =>
    intro hall
    obtain ⟨a0, i0⟩ := p
    obtain ⟨b, hb⟩ := hall a0 i0 (List.mem_cons_self _ _)
    subst hb
    obtain ⟨bs, hbs⟩ := ih (fun ad inf? hm => hall ad inf? (List.mem_cons_of_mem _ hm))
    exact ⟨b :: bs, by simp [Strict.collectAccounts, hbs]⟩

/-- C7 (amended): in the strict adapter generation every read failure — a
rejected fetch, a missing (null) account, or an account whose `data`
field is absent — raises a `SolanaStorageError` carrying the operation's
stable code (`DATA_FETCH_ERROR`, `MULTIPLE_ACCOUNTS_FETCH_ERROR`,
`ENTITY_GET_ERROR`) rather than returning an absent value; an account
that is found with a present `data` Buffer returns that payload as-is,
including when it is zero-length.  For the batch read this covers both a
rejected fetch and a missing/`data`-less entry inside an otherwise
well-formed batch (the first such entry raises, naming its address), and
an all-present batch succeeds. -/
theorem c7_strict_read_errors :
    (∀ (a : StrictAdapter) (addr m : String),
        a.connection.getAccountInfo addr = .err m →
        Strict.getData a addr
          = Except.error ⟨"Failed to fetch data for address " ++ addr ++ ": " ++ m,
              "DATA_FETCH_ERROR"⟩)
    ∧ (∀ (a : StrictAdapter) (addr : String),
        a.connection.getAccountInfo addr = .ok none →
        Strict.getData a addr
          = Except.error ⟨"Failed to fetch data for address " ++ addr
              ++ ": Account data not found for address " ++ addr, "DATA_FETCH_ERROR"⟩)
    ∧ (∀ (a : StrictAdapter) (addr : String),
        a.connection.getAccountInfo addr = .ok (some ⟨none⟩) →
        Strict.getData a addr
          = Except.error ⟨"Failed to fetch data for address " ++ addr
              ++ ": Account data not found for address " ++ addr, "DATA_FETCH_ERROR"⟩)
    ∧ (∀ (a : StrictAdapter) (addr : String) (b : Bytes),
        a.connection.getAccountInfo addr = .ok (some ⟨some b⟩) →
        Strict.getData a addr = Except.ok b)
    ∧ (∀ (a : StrictAdapter) (addrs : List String) (m : String),
        a.connection.getMultipleAccountsInfo addrs = .error m →
        Strict.getMultipleAccounts a addrs
          = Except.error ⟨"Failed to fetch multiple accounts: " ++ m,
              "MULTIPLE_ACCOUNTS_FETCH_ERROR"⟩)
    ∧ (∀ (a : StrictAdapter) (addrs : List String),
        (∃ bs, Strict.getMultipleAccounts a addrs = Except.ok bs)
        ∨ (∃ m, Strict.getMultipleAccounts a addrs
            = Except.error ⟨m, "MULTIPLE_ACCOUNTS_FETCH_ERROR"⟩))
    ∧ (∀ (a : StrictAdapter) (addrs : List String) (infos : List (Option AccountData))
          (pre : List (String × Option AccountData)) (addr : String)
          (info? : Option AccountData) (post : List (String × Option AccountData)),
        a.connection.getMultipleAccountsInfo addrs = .ok infos →
        addrs.zip infos = pre ++ (addr, info?) :: post →
        (∀ ad inf?, (ad, inf?) ∈ pre → ∃ b, inf? = some ⟨some b⟩) →
        (info? = none ∨ info? = some ⟨none⟩) →
        Strict.getMultipleAccounts a addrs
          = Except.error ⟨"Failed to fetch multiple accounts: Account data not found for address "
              ++ addr, "MULTIPLE_ACCOUNTS_FETCH_ERROR"⟩)
    ∧ (∀ (a : StrictAdapter) (addrs : List String) (infos : List (Option AccountData)),
        a.connection.getMultipleAccountsInfo addrs = .ok infos →
        (∀ ad inf?, (ad, inf?) ∈ addrs.zip infos → ∃ b, inf? = some ⟨some b⟩) →
        ∃ bs, Strict.getMultipleAccounts a addrs = Except.ok bs)
    ∧ (∀ (a : StrictAdapter) (entityId worldName m : String),
        a.connection.getAccountInfo
            (findProgramAddress ["entity", worldName, entityId] a.programId) = .err m →
        Strict.getEntityDataById a entityId worldName
          = Except.error ⟨"Failed to get entity data for ID " ++ entityId ++ ": " ++ m,
              "ENTITY_GET_ERROR"⟩)
    ∧ (∀ (a : StrictAdapter) (entityId worldName : String),
        a.connection.getAccountInfo
            (findProgramAddress ["entity", worldName, entityId] a.programId) = .ok none →
        Strict.getEntityDataById a entityId worldName
          = Except.error ⟨"Failed to get entity data for ID " ++ entityId ++ ": Entity "
              ++ entityId ++ " not found in world " ++ worldName, "ENTITY_GET_ERROR"⟩)
    ∧ (∀ (a : StrictAdapter) (entityId worldName : String),
        a.connection.getAccountInfo
            (findProgramAddress ["entity", worldName, entityId] a.programId)
          = .ok (some ⟨none⟩) →
        Strict.getEntityDataById a entityId worldName
          = Except.error ⟨"Failed to get entity data for ID " ++ entityId ++ ": Entity "
              ++ entityId ++ " not found in world " ++ worldName, "ENTITY_GET_ERROR"⟩)
    ∧ (∀ (a : StrictAdapter) (entityId worldName : String) (b : Bytes),
        a.connection.getAccountInfo
            (findProgramAddress ["entity", worldName, entityId] a.programId)
          = .ok (some ⟨some b⟩) →
        Strict.getEntityDataById a entityId worldName = Except.ok b) := by
  refine ⟨?_, ?_, ?_, ?_, ?_, ?_, ?_, ?_, ?_, ?_, ?_, ?_⟩
  · intro a addr m h; unfold Strict.getData; rw [h]
  · intro a addr h; unfold Strict.getData; rw [h]
  · intro a addr h; unfold Strict.getData; rw [h]
  · intro a addr b h; unfold Strict.getData; rw [h]
  · intro a addrs m h; unfold Strict.getMultipleAccounts; rw [h]
  · intro a addrs
    unfold Strict.getMultipleAccounts
    cases h : a.connection.getMultipleAccountsInfo addrs with
    | error m => exact Or.inr ⟨"Failed to fetch multiple accounts: " ++ m, rfl⟩
    | ok infos =>
      have collect : ∀ l : List (String × Option AccountData),
          (∃ bs, Strict.collectAccounts l = Except.ok bs)
          ∨ (∃ m, Strict.collectAccounts l
              = Except.error ⟨m, "MULTIPLE_ACCOUNTS_FETCH_ERROR"⟩) := by
        intro l
        induction l with
        | nil => exact Or.inl ⟨[], rfl⟩
        | cons p rest ih =>
          obtain ⟨addr, info?⟩ := p
          cases info? with
          | none =>
            exact Or.inr ⟨"Failed to fetch multiple accounts: Account data not found for address "
              ++ addr, rfl⟩
          | some info =>
            cases hd : info.data with
            | none =>
              refine Or.inr ⟨"Failed to fetch multiple accounts: Account data not found for address "
                ++ addr, ?_⟩
              simp [Strict.collectAccounts, hd]
            | some b =>
              rcases ih with ⟨bs, hbs⟩ | ⟨m, hm⟩
              · refine Or.inl ⟨b :: bs, ?_⟩
                simp [Strict.collectAccounts, hd, hbs]
              · refine Or.inr ⟨m, ?_⟩
                simp [Strict.collectAccounts, hd, hm]
      exact collect (addrs.zip infos)
  · intro a addrs infos pre addr info? post h hzip hpre hmiss
    unfold Strict.getMultipleAccounts
    rw [h]
    show Strict.collectAccounts (addrs.zip infos) = _
    rw [hzip]
    exact collectAccounts_first_missing addr info? hmiss pre post hpre
  · intro a addrs infos h hall
    unfold Strict.getMultipleAccounts
    rw [h]
    show ∃ bs, Strict.collectAccounts (addrs.zip infos) = Except.ok bs
    exact collectAccounts_all_present _ hall
  · intro a eid w m h; simp only [Strict.getEntityDataById]; rw [h]
  · intro a eid w h; simp only [Strict.getEntityDataById]; rw [h]
  · intro a eid w h; simp only [Strict.getEntityDataById]; rw [h]
  · intro a eid w b h; simp only [Strict.getEntityDataById]; rw [h]

/-- Connection used to refute the permissive adapter's empty-payload
claim: the account is found with a zero-length `data` Buffer. -/
def c8Connection : Connection :=
  ⟨fun _ => .ok (some ⟨some []⟩), fun addrs => .ok (addrs.map (fun _ => some ⟨some []⟩))⟩

def c8Adapter : PermissiveAdapter := ⟨c8Connection, "Prog1111"⟩

/-- C8 counterexample: for an account that is found but has an empty
payload (zero-length `data` Buffer — truthy in JS), the permissive
`getData` returns the present empty payload, not an absent value,
refuting the claim that an empty account payload yields an absent
result. -/
theorem c8_counterexample :
    Permissive.getData c8Adapter "Addr1" = some [] := rfl

/-- C8 (amended): the permissive `getData`/`getMultipleAccounts` never
raise; a rejected fetch or a missing account (null `AccountInfo` or null
`data` field) resolves to an absent value — for the batch call, an
all-absent array whose length equals the number of requested addresses —
while a found account's payload is returned as-is, including when it is
zero-length.  (Non-raising is structural: both embeddings are total
functions into `Option`, mirroring the source's catch-all handlers.) -/
theorem c8_permissive_read_tolerance :
    (∀ (a : PermissiveAdapter) (addr m : String),
        a.connection.getAccountInfo addr = .err m → Permissive.getData a addr = none)
    ∧ (∀ (a : PermissiveAdapter) (addr : String),
        a.connection.getAccountInfo addr = .ok none → Permissive.getData a addr = none)
    ∧ (∀ (a : PermissiveAdapter) (addr : String),
        a.connection.getAccountInfo addr = .ok (some ⟨none⟩) →
        Permissive.getData a addr = none)
    ∧ (∀ (a : PermissiveAdapter) (addr : String) (b : Bytes),
        a.connection.getAccountInfo addr = .ok (some ⟨some b⟩) →
        Permissive.getData a addr = some b)
    ∧ (∀ (a : PermissiveAdapter) (addrs : List String) (m : String),
        a.connection.getMultipleAccountsInfo addrs = .error m →
        Permissive.getMultipleAccounts a addrs = List.replicate addrs.length none)
    ∧ (∀ (a : PermissiveAdapter) (addrs : List String) (m : String),
        a.connection.getMultipleAccountsInfo addrs = .error m →
        (Permissive.getMultipleAccounts a addrs).length = addrs.length)
    ∧ (∀ (a : PermissiveAdapter) (addrs : List String)
          (infos : List (Option AccountData)) (i : Nat),
        a.connection.getMultipleAccountsInfo addrs = .ok infos →
        (Permissive.getMultipleAccounts a addrs)[i]?
          = infos[i]?.map (fun info? =>
              match info? with
              | none => none
              | some info =>
                match info.data with
                | none => none
                | some b => some b)) := by
  refine ⟨?_, ?_, ?_, ?_, ?_, ?_, ?_⟩
  · intro a addr m h; unfold Permissive.getData; rw [h]
  · intro a addr h; unfold Permissive.getData; rw [h]
  · intro a addr h; unfold Permissive.getData; rw [h]
  · intro a addr b h; unfold Permissive.getData; rw [h]
  · intro a addrs m h; unfold Permissive.getMultipleAccounts; rw [h]
  · intro a addrs m h
    unfold Permissive.getMultipleAccounts
    rw [h]
    exact List.length_replicate _ _
  · intro a addrs infos i h
    unfold Permissive.getMultipleAccounts
    rw [h]
    exact List.getElem?_map _ _ _

/-! Helper lemmas for the no-rollback claim. -/

lemma entityLookup_entitySet (m : List (String × Entity)) (id : String) (ent : Entity) :
    entityLookup (World.createEntity.entitySet m id ent) id = some ent := by
  induction m with
  | nil => simp [World.createEntity.entitySet, entityLookup]
  | cons kv rest ih =>
    obtain ⟨k, e⟩ := kv
    by_cases h : k = id
    · simp [World.createEntity.entitySet, entityLookup, h]
    · simp [World.createEntity.entitySet, entityLookup, h, ih]

lemma getEntity_createEntity (w : World) (id pk : String) :
    (w.createEntity id pk).1.getEntity id = some ⟨id, pk, []⟩ := by
  simp [World.createEntity, World.getEntity, World.updateQueries, entityLookup_entitySet]

lemma entityLookup_addMap (m : List (String × Entity)) (id ty : String) (v : Value) :
    entityLookup (m.map (fun kv =>
        if kv.1 = id then (kv.1, kv.2.addComponent ty v) else kv)) id
      = (entityLookup m id).map (fun e => e.addComponent ty v) := by
  induction m with
  | nil => rfl
  | cons kv rest ih =>
    obtain ⟨k, e⟩ := kv
    rw [List.map_cons]
    show entityLookup ((if k = id then (k, e.addComponent ty v) else (k, e)) ::
        List.map (fun kv => if kv.1 = id then (kv.1, kv.2.addComponent ty v) else kv) rest) id
      = Option.map (fun e => e.addComponent ty v) (entityLookup ((k, e) :: rest) id)
    by_cases h : k = id
    · subst h
      rw [if_pos rfl]
      simp [entityLookup]
    · rw [if_neg h]
      simp only [entityLookup]
      rw [if_neg h, if_neg h]
      exact ih

lemma getEntity_entAddComponent (w : World) (id ty : String) (v : Value) :
    (w.entAddComponent id ty v).getEntity id
      = (w.getEntity id).map (fun e => e.addComponent ty v) := by
  simp only [World.entAddComponent, World.getEntity]
  exact entityLookup_addMap w.entities id ty v

/-- The component map obtained by attaching `comps` in order on top of
`m` (the effect of `createEntity`'s `processComponent` loop). -/
def attachAll (m : List (String × Value)) (comps : List (String × Value)) :
    List (String × Value) :=
  comps.foldl (fun acc pr => mapSet acc pr.1 pr.2) m

lemma processAll_spec (rtest : String → String → Bool) (id pk : String) :
    ∀ (comps : List (String × Value)) (s : SDKState) (m : List (String × Value)),
      s.world.getEntity id = some ⟨id, pk, m⟩ →
      (∀ pr ∈ comps, ∃ ws, validateStep rtest s.blueprint pr.1 pr.2 = .ok ws) →
      (processAll rtest s id comps).2 = none
      ∧ (processAll rtest s id comps).1.world.getEntity id
          = some ⟨id, pk, attachAll m comps⟩
      ∧ (processAll rtest s id comps).1.blueprint = s.blueprint := by
  intro comps
  induction comps with
  | nil =>
    intro s m hent _
    exact ⟨rfl, by simpa [processAll, attachAll] using hent, rfl⟩
  | cons pr rest ih =>
    intro s m hent hv
    obtain ⟨ty, v⟩ := pr
    obtain ⟨ws, hws⟩ := hv (ty, v) (List.mem_cons_self _ _)
    have hpc : processComponent rtest s id ty v
        = .ok ({ s with world := s.world.entAddComponent id ty v }, ws) := by
      unfold processComponent
      rw [hws, hent]
    have hstep : processAll rtest s id ((ty, v) :: rest)
        = processAll rtest ({ s with world := s.world.entAddComponent id ty v }) id rest := by
      conv_lhs => rw [processAll]
      rw [hpc]
    have hent' : ({ s with world := s.world.entAddComponent id ty v } : SDKState).world.getEntity id
        = some ⟨id, pk, mapSet m ty v⟩ := by
      show (s.world.entAddComponent id ty v).getEntity id = _
      rw [getEntity_entAddComponent, hent]
      rfl
    have hv' : ∀ pr ∈ rest,
        ∃ ws, validateStep rtest
          ({ s with world := s.world.entAddComponent id ty v } : SDKState).blueprint
          pr.1 pr.2 = .ok ws := fun pr hpr => hv pr (List.mem_cons_of_mem _ hpr)
    obtain ⟨h1, h2, h3⟩ := ih _ _ hent' hv'
    rw [hstep]
    exact ⟨h1, h2, h3⟩

/-- C9: `createEntity` creates the local World entity and attaches its
validated components before the chain submission; when the chain
submission fails, the raised SDK-level error leaves the newly created
entity (with its components) in the World — local state is not rolled
back. -/
theorem c9_no_rollback_on_chain_failure (rtest : String → String → Bool)
    (s : SDKState) (entityAccount : Keypair) (comps : List (String × Value))
    (chain : String → Keypair → String → Except String String)
    (payer : Keypair) (cause : String)
    (hp : s.getActivePayer = .ok payer)
    (hv : ∀ pr ∈ comps, ∃ ws, validateStep rtest s.blueprint pr.1 pr.2 = .ok ws)
    (hchain : ∀ d p w, chain d p w = .error cause) :
    (RushSDK.createEntity rtest s entityAccount comps chain).2
      = .error ("Failed to save entity " ++ entityAccount.publicKey
          ++ " to chain during creation.")
    ∧ (RushSDK.createEntity rtest s entityAccount comps chain).1.world.getEntity
        entityAccount.publicKey
      = some ⟨entityAccount.publicKey, entityAccount.publicKey, attachAll [] comps⟩ := by
  have hcreated : ((s.world.createEntity entityAccount.publicKey
      entityAccount.publicKey).1).getEntity entityAccount.publicKey
      = some ⟨entityAccount.publicKey, entityAccount.publicKey, []⟩ :=
    getEntity_createEntity s.world _ _
  obtain ⟨h1, h2, _h3⟩ := processAll_spec rtest entityAccount.publicKey
    entityAccount.publicKey comps
    { s with world := (s.world.createEntity entityAccount.publicKey
        entityAccount.publicKey).1 } [] hcreated hv
  rcases hq : processAll rtest
      { s with world := (s.world.createEntity entityAccount.publicKey
          entityAccount.publicKey).1 }
      entityAccount.publicKey comps with ⟨s2, r⟩
  rw [hq] at h1 h2
  simp only at h1 h2
  subst h1
  constructor
  · simp only [RushSDK.createEntity, hp, hq, hchain]
  · simp only [RushSDK.createEntity, hp, hq, hchain]
    exact h2

def c9State : SDKState := (SDKState.init none).setPrimaryWallet ⟨"W1"⟩

/-- Witness for C9 at a concrete input: a facade with a primary wallet,
one component, and an always-failing chain submission. -/
theorem c9_witness :
    ((RushSDK.createEntity (fun _ _ => true) c9State ⟨"E"⟩ [("position", .vNum 1)]
        (fun _ _ _ => Except.error "boom")).2
      = Except.error "Failed to save entity E to chain during creation.")
    ∧ ((RushSDK.createEntity (fun _ _ => true) c9State ⟨"E"⟩ [("position", .vNum 1)]
        (fun _ _ _ => Except.error "boom")).1.world.getEntity "E"
      = some ⟨"E", "E", [("position", .vNum 1)]⟩) :=
  c9_no_rollback_on_chain_failure (fun _ _ => true) c9State ⟨"E"⟩
    [("position", .vNum 1)] (fun _ _ _ => Except.error "boom") ⟨"W1"⟩ "boom"
    rfl (fun _ _ => ⟨[], rfl⟩) (fun _ _ _ => rfl)

/-- Witness for C2 at a concrete input: a one-entity world queried for a
component no entity has returns the empty sequence. -/
theorem c2_witness :
    (World.fresh.createEntity "e1" "p1").1.query ["velocity"] = [] :=
  c2_query_semantics.2.2.2 (World.fresh.createEntity "e1" "p1").1 ["velocity"]
    "velocity" (by decide) (by decide)

/-- Witness for C3 at a concrete input: two worlds with the same entities
but different cache contents answer a query identically. -/
theorem c3_witness :
    World.query ⟨[], [("position", [⟨"stale", "pk", []⟩])]⟩ ["position"]
      = World.query ⟨[], []⟩ ["position"] :=
  c3_query_cache_dead.2 ⟨[], [("position", [⟨"stale", "pk", []⟩])]⟩ ⟨[], []⟩
    ["position"] rfl

/-- Witness for C7 at concrete inputs: a missing (null) account raises
the typed `DATA_FETCH_ERROR`, and a batch whose second entry is a
missing account raises the typed `MULTIPLE_ACCOUNTS_FETCH_ERROR` naming
that entry's address. -/
theorem c7_strict_read_errors_witness :
    (Strict.getData ⟨⟨fun _ => .ok none, fun _ => .ok []⟩, "Prog1"⟩ "A"
      = Except.error ⟨"Failed to fetch data for address A: Account data not found for address A",
          "DATA_FETCH_ERROR"⟩)
    ∧ (Strict.getMultipleAccounts
        ⟨⟨fun _ => .ok none, fun _ => .ok [some ⟨some [1]⟩, none]⟩, "Prog1"⟩ ["A1", "A2"]
      = Except.error ⟨"Failed to fetch multiple accounts: Account data not found for address A2",
          "MULTIPLE_ACCOUNTS_FETCH_ERROR"⟩) :=
  ⟨c7_strict_read_errors.2.1 ⟨⟨fun _ => .ok none, fun _ => .ok []⟩, "Prog1"⟩ "A" rfl,
   c7_strict_read_errors.2.2.2.2.2.2.1
     ⟨⟨fun _ => .ok none, fun _ => .ok [some ⟨some [1]⟩, none]⟩, "Prog1"⟩
     ["A1", "A2"] [some ⟨some [1]⟩, none] [("A1", some ⟨some [1]⟩)] "A2" none []
     rfl rfl
     (by
       intro ad inf? hm
       simp only [List.mem_singleton, Prod.mk.injEq] at hm
       exact ⟨[1], hm.2⟩)
     (Or.inl rfl)⟩

/-- Witness for C8 at a concrete input: a missing (null) account resolves
to an absent value without raising. -/
theorem c8_permissive_read_tolerance_witness :
    Permissive.getData ⟨⟨fun _ => .ok none, fun _ => .ok []⟩, "Prog1"⟩ "A" = none :=
  c8_permissive_read_tolerance.2.1 ⟨⟨fun _ => .ok none, fun _ => .ok []⟩, "Prog1"⟩ "A" rfl
